import Mathlib

/-!
Shallow embedding of the resilient translation orchestrator of the
chinese-translator repository, together with proofs of the behavioural
properties stated in its design document.

The definitions below are translated directly from the JavaScript sources:
`src/translation-service.js`, `src/providers/gemini-provider.js`,
`src/app.js`, the camera translator module and the credit service module.
All code is single-threaded and event-loop driven, so asynchronous
computations are modelled by their settled outcomes plus explicit latency
accounting, and the live-mode schedulers by explicit state machines.
-/

deriving instance DecidableEq for Except

namespace ChineseTranslator

/-- JS `String.prototype.includes`, modelled on character lists:
`occursIn needle hay` is true when `needle` occurs contiguously in `hay`. -/
def occursIn (needle : List Char) : List Char → Bool
  | [] => needle.isEmpty
  | c :: rest => needle.isPrefixOf (c :: rest) || occursIn needle rest

/-- The retry predicate of `TranslationService._generateWithRetry`
(src/translation-service.js line 243): retry exactly when the error message
contains "503", "overloaded" or "429". -/
def isRetriableMsg (msg : String) : Bool :=
  occursIn "503".data msg.data || occursIn "overloaded".data msg.data ||
    occursIn "429".data msg.data

/-- One backend attempt as observed by the retry wrapper: its latency in
milliseconds and its settled outcome (`.ok text` or `.error message`). -/
structure AttemptSpec where
  latencyMs : Nat
  outcome : Except String String
deriving Repr, DecidableEq

/-- Environment of a single endpoint: the behaviour of its n-th attempt
(attempts are numbered from 1, as in the JS `for` loop). -/
abbrev EndpointEnv := Nat → AttemptSpec

/-- Result of one `_generateWithRetry` call: the settled outcome, how many
attempts were actually made, the total backoff waited, and the total elapsed
time (attempt latencies plus backoff). -/
structure RetryRun where
  result : Except String String
  attemptsMade : Nat
  backoffMs : Nat
  elapsedMs : Nat
deriving Repr, DecidableEq

/-- The loop body of `_generateWithRetry` (src/translation-service.js
lines 212-252): on a retriable error the code waits `attempt * 1000` ms and
continues (also after the final attempt, before rethrowing the last error);
any other error is rethrown at once; a success returns immediately.
`fuel` is the number of attempts still allowed. -/
def retryLoop (env : EndpointEnv) :
    Nat → Nat → Nat → Nat → String → RetryRun
  | 0, attempt, backoff, elapsed, lastErr =>
      ⟨.error lastErr, attempt - 1, backoff, elapsed⟩
  | fuel + 1, attempt, backoff, elapsed, _ =>
      let a := env attempt
      match a.outcome with
      | .ok text => ⟨.ok text, attempt, backoff, elapsed + a.latencyMs⟩
      | .error msg =>
          if isRetriableMsg msg then
            retryLoop env fuel (attempt + 1) (backoff + attempt * 1000)
              (elapsed + a.latencyMs + attempt * 1000) msg
          else ⟨.error msg, attempt, backoff, elapsed + a.latencyMs⟩

/-- `_generateWithRetry` with its hard-coded bound of 3 attempts. -/
def generateWithRetry (env : EndpointEnv) : RetryRun :=
  retryLoop env 3 1 0 0 ""

/-- `_generateWithTimeout` (src/translation-service.js lines 196-209) models
`Promise.race` between the retry computation and a `setTimeout` rejection;
`none` (a JS `null` timeout, gemini-provider.js line 50 and the branch at
line 220) runs the computation bare.  When the deadline fires first the
loser is abandoned, not aborted: its own outcome never reaches the caller. -/
def withTimeout (run : RetryRun) : Option Nat → Except String String
  | none => run.result
  | some t =>
      if run.elapsedMs < t then run.result
      else .error ("Timeout after " ++ toString t ++ "ms")

/-- `TranslationService.translate` (src/translation-service.js lines 59-110):
the hard-coded daisy chain gemini-2.5-flash (45 s timeout), then
gemini-3-pro-preview (60 s timeout), then gemini-1.5-flash with no timeout;
the outer catch wraps whatever error escapes the chain (which can only be
the last endpoint's error) as "System Failure: ...". The API-key
configuration check preceding the chain is outside this model. -/
def translate (env1 env2 env3 : EndpointEnv) : Except String String :=
  match withTimeout (generateWithRetry env1) (some 45000) with
  | .ok r => .ok r
  | .error _ =>
    match withTimeout (generateWithRetry env2) (some 60000) with
    | .ok r => .ok r
    | .error _ =>
      match (generateWithRetry env3).result with
      | .ok r => .ok r
      | .error m => .error ("System Failure: " ++ m)

/-- The model catalog passed by `GeminiProvider.translate`
(src/providers/gemini-provider.js lines 47-51). -/
def geminiCatalog : List (String × Option Nat) :=
  [("gemini-2.5-flash", some 45000),
   ("gemini-3-pro-preview", some 60000),
   ("gemini-1.5-flash", none)]

/-- `GeminiProvider._tryModelsInOrder` (lines 208-233) over the settled
per-endpoint outcomes, starting at endpoint index `idx` with the error of
the previous endpoint in `lastErr`: walk the list in order, return the
first success, rethrow the last endpoint's error on exhaustion.  Also
returns the list of endpoint indices actually invoked, in order. -/
def tryInOrderFrom (idx : Nat) (lastErr : String) :
    List (Except String String) → Except String String × List Nat
  | [] => (.error lastErr, [])
  | o :: rest =>
    match o with
    | .ok text => (.ok text, [idx])
    | .error msg =>
      let r := tryInOrderFrom (idx + 1) msg rest
      (r.1, idx :: r.2)

/-- `_tryModelsInOrder` from the start of the catalog. -/
def tryModelsInOrder (os : List (Except String String)) :
    Except String String × List Nat :=
  tryInOrderFrom 0 "" os

/-- `GeminiProvider.translate`: the catalog entries layered as
timeout-around-retry, the last entry running bare because its timeout is
`null` (the `if (timeout)` branch at gemini-provider.js line 220). -/
def geminiTryModels (envs : Nat → EndpointEnv) :
    Except String String × List Nat :=
  tryModelsInOrder
    [withTimeout (generateWithRetry (envs 0)) (some 45000),
     withTimeout (generateWithRetry (envs 1)) (some 60000),
     withTimeout (generateWithRetry (envs 2)) none]

/-! ## Streaming deliveries

`_generateWithRetry` in streaming mode (translation-service.js lines
224-233) accumulates `fullText` chunk by chunk and hands the accumulated
string — never a delta — to `onStreamUpdate` after each chunk.  The
accumulator is re-initialised to the empty string at the top of every
attempt of the retry loop. -/

/-- The JS accumulation `fullText += chunk` folded over a chunk list,
starting from `acc`. -/
def concatTo (acc : String) : List String → String
  | [] => acc
  | c :: rest => concatTo (acc ++ c) rest

/-- The successive strings handed to `onStreamUpdate` while one attempt
streams `chunks`, the accumulator having started at `acc`. -/
def deliveriesFrom (acc : String) : List String → List String
  | [] => []
  | c :: rest => (acc ++ c) :: deliveriesFrom (acc ++ c) rest

/-- All deliveries of one attempt (the accumulator starts empty). -/
def attemptDeliveries (chunks : List String) : List String :=
  deliveriesFrom "" chunks

/-- Behaviour of one streaming attempt: either the stream completes after
yielding `chunks`, or it fails with `errMsg` after yielding `chunks`. -/
inductive StreamAttempt where
  | success (chunks : List String)
  | failAfter (chunks : List String) (errMsg : String)

/-- The streaming branch of `_generateWithRetry`: each attempt streams with
a fresh accumulator; a retriable mid-stream failure moves to the next
attempt, any other failure rethrows; on completion the accumulated text is
trimmed and returned.  Returns every string delivered to `onStreamUpdate`
across the whole call together with the settled outcome. -/
def streamRetryLoop (env : Nat → StreamAttempt) :
    Nat → Nat → String → List String × Except String String
  | 0, _, lastErr => ([], .error lastErr)
  | fuel + 1, attempt, _ =>
    match env attempt with
    | .success chunks =>
        (attemptDeliveries chunks, .ok ((concatTo "" chunks).trim))
    | .failAfter chunks msg =>
        if isRetriableMsg msg then
          let r := streamRetryLoop env fuel (attempt + 1) msg
          (attemptDeliveries chunks ++ r.1, r.2)
        else (attemptDeliveries chunks, .error msg)

/-- One full streaming `_generateWithRetry` call (3 attempts). -/
def streamRetry (env : Nat → StreamAttempt) :
    List String × Except String String :=
  streamRetryLoop env 3 1 ""

/-! ## Camera live session (camera translator module)

`captureAndTranslate` bails out synchronously unless the session is active
and idle, raises `isTranslating` before its first await, and clears it in
its `finally`; the 3-second interval tick and the manual `translateNow`
both route into it. -/

/-- State of the camera live session. -/
structure CamState where
  isActive : Bool
  isTranslating : Bool
  attempts : Nat
deriving Repr, DecidableEq

/-- Synchronous entry of `CameraTranslator.captureAndTranslate` (camera
module lines 129-133): bail out unless active and idle, otherwise raise the
in-flight flag and begin one translation attempt. -/
def camCapture (s : CamState) : CamState :=
  if !s.isActive || s.isTranslating then s
  else { s with isTranslating := true, attempts := s.attempts + 1 }

/-- The `finally` of `captureAndTranslate` (line 159): the attempt resolves
and the in-flight flag is cleared. -/
def camResolve (s : CamState) : CamState :=
  { s with isTranslating := false }

/-- The interval callback of `startTranslationLoop` (lines 119-123). -/
def camTimerTick (s : CamState) : CamState :=
  if s.isActive && !s.isTranslating then camCapture s else s

/-- `CameraTranslator.translateNow` (lines 302-307). -/
def camTranslateNow (s : CamState) : CamState :=
  if !s.isActive then s else camCapture s

/-! ## PDF live session (app.js)

`scheduleDebounceTranslation` clears any pending debounce timer, bails out
while a translation is in progress, and otherwise schedules
`pdfLiveTranslate` 800 ms later; `pdfLiveTranslate` itself bails out while
one is in progress. -/

/-- State of the PDF live session: whether live mode is active, whether a
translation is in flight (`translationInProgress`), the absolute time at
which the pending debounce timer fires (if any), and the start times of the
translation runs performed so far. -/
structure PdfState where
  liveActive : Bool
  inProgress : Bool
  debounceAt : Option Nat
  runs : List Nat
deriving Repr, DecidableEq

/-- `scheduleDebounceTranslation` (app.js lines 1203-1221) run at time `t`:
clear the pending timer, stop if in flight, else arm the timer for
`t + 800`. -/
def pdfMoveEnd (s : PdfState) (t : Nat) : PdfState :=
  let s1 := { s with debounceAt := none }
  if s1.inProgress then s1
  else { s1 with debounceAt := some (t + 800) }

/-- The debounce timer firing (the `setTimeout` callback at app.js
line 1216, followed by the guards at the top of `pdfLiveTranslate`): the
timer is consumed; a translation runs only when live mode is still active
and no translation is in flight.  For the idle scenarios modelled here the
run is recorded by its start time. -/
def pdfFire (s : PdfState) : PdfState :=
  match s.debounceAt with
  | none => s
  | some f =>
      let s1 := { s with debounceAt := none }
      if s1.liveActive && !s1.inProgress then { s1 with runs := s1.runs ++ [f] }
      else s1

/-- Fire the pending timer if its deadline has passed by time `t`. -/
def fireIfDue (s : PdfState) (t : Nat) : PdfState :=
  match s.debounceAt with
  | some f => if f ≤ t then pdfFire s else s
  | none => s

/-- Process a time-ordered list of movement-end events: before each event
the pending timer fires if it was due, then the event itself runs
`scheduleDebounceTranslation`. -/
def debounceRun (s : PdfState) : List Nat → PdfState
  | [] => s
  | t :: rest => debounceRun (pdfMoveEnd (fireIfDue s t) t) rest

/-- After the last event, let the pending timer (if any) fire. -/
def debounceFinish (s : PdfState) : PdfState := pdfFire s

/-! ## Credit service (credit service module)

Guest credits live in `localStorage` under one key; the stored string is
modelled by the integer that `parseInt(stored, 10) || 0` yields (a
non-numeric string therefore appears as `0`), and an absent key by
`none`. -/

/-- The guest credit storage cell. -/
structure GuestStore where
  val : Option Int
deriving Repr, DecidableEq

/-- `CreditService.getGuestCredits` (credit module lines 61-69): an absent
key means a first-time guest — the initial 10 credits are written and
returned; otherwise the parsed stored value is returned, storage
untouched. -/
def getGuestCredits (s : GuestStore) : Int × GuestStore :=
  match s.val with
  | none => (10, ⟨some 10⟩)
  | some v => (v, s)

/-- Outcome record of `useGuestCredit`. -/
structure UseCreditResult where
  success : Bool
  remainingCredits : Option Int
  promptLogin : Bool
deriving Repr, DecidableEq

/-- `CreditService.useGuestCredit` (lines 121-136): read the balance; at
zero or below fail with `promptLogin` and write nothing; otherwise store
and return the decremented balance. -/
def useGuestCredit (s : GuestStore) : UseCreditResult × GuestStore :=
  let g := getGuestCredits s
  if g.1 ≤ 0 then (⟨false, none, true⟩, g.2)
  else (⟨true, some (g.1 - 1), false⟩, ⟨some (g.1 - 1)⟩)

/-! ## Credit gating of the orchestrator call sites (app.js) -/

/-- The parts of the application state that decide whether a call site
reaches `translationService.translate`: the guest credit storage, whether
an API key is configured, and whether the selection capture succeeds
(selection overlaps the page and image data is produced). -/
structure AppEnv where
  guest : GuestStore
  apiKeySet : Bool
  validSelection : Bool
deriving Repr, DecidableEq

/-- `ChineseTranslatorApp.captureAndTranslate` (app.js lines 1343-1424),
reduced to whether the orchestrator is invoked: `useCredit` (guest path)
runs first and a failure returns before anything else; then the API-key
check, then the capture steps, and only then the `translate` call. -/
def appCaptureCallsTranslate (e : AppEnv) : Bool × GuestStore :=
  let r := useGuestCredit e.guest
  if !r.1.success then (false, r.2)
  else if !e.apiKeySet then (false, r.2)
  else if !e.validSelection then (false, r.2)
  else (true, r.2)

/-- `ChineseTranslatorApp.pdfLiveTranslate` (app.js lines 1226-1279),
reduced to whether the orchestrator is invoked: the guards are live mode
being active, no translation in flight, and a successful capture — there is
no credit check anywhere on this path. -/
def pdfLiveCallsTranslate (e : AppEnv) (p : PdfState) : Bool :=
  if !p.liveActive then false
  else if p.inProgress then false
  else if !e.validSelection then false
  else true

/-- `CameraTranslator.captureAndTranslate`, reduced to whether the
orchestrator is invoked: active and idle is all it takes — no credit check
on this path either. -/
def camCallsTranslate (s : CamState) : Bool :=
  s.isActive && !s.isTranslating

/-! ## Word-pair translation result assembly

`translateWithWordPairs` (translation-service.js lines 119-194) asks the
model for JSON and post-processes `JSON.parse`: the parse itself is the JS
builtin, so its outcome is an input here — `none` models a thrown parse
error, `some p` a parsed JSON value.  JS field access and the `||` defaults
are modelled on a JSON value type with JS truthiness. -/

/-- JSON values (objects modelled with distinct keys, as produced by the
backend). -/
inductive Json where
  | null
  | bool (b : Bool)
  | num (n : Int)
  | str (s : String)
  | arr (elems : List Json)
  | obj (fields : List (String × Json))

/-- JS truthiness of a JSON value. -/
def Json.truthy : Json → Bool
  | .null => false
  | .bool b => b
  | .num n => n != 0
  | .str s => s != ""
  | .arr _ => true
  | .obj _ => true

/-- JS property access `p.k` on a parsed JSON value: only objects have
fields; anything else yields `undefined` (`none`). -/
def Json.getField : Json → String → Option Json
  | .obj fields, k => fields.lookup k
  | _, _ => none

/-- Tags for the shape checks used in the statements below. -/
def Json.isStr : Json → Bool
  | .str _ => true
  | _ => false

/-- Whether a JSON value is an array. -/
def Json.isArr : Json → Bool
  | .arr _ => true
  | _ => false

/-- The JS idiom `v || d` applied to a field access result. -/
def jsOr (v : Option Json) (d : Json) : Json :=
  match v with
  | some x => if x.truthy then x else d
  | none => d

/-- The object `translateWithWordPairs` resolves with. -/
structure WordPairsResult where
  originalText : Json
  fullTranslation : Json
  wordPairs : Json

/-- The result assembly of `translateWithWordPairs` (translation-service.js
lines 172-188): a parse failure resolves — it does not reject — with empty
original text, the raw response text as the full translation, and an empty
word-pair list; a successful parse takes each field through `|| default`. -/
def translateWithWordPairs (text : String) (parsed : Option Json) :
    WordPairsResult :=
  match parsed with
  | none => ⟨.str "", .str text, .arr []⟩
  | some p =>
      ⟨jsOr (p.getField "originalText") (.str ""),
       jsOr (p.getField "fullTranslation") (.str ""),
       jsOr (p.getField "wordPairs") (.arr [])⟩

/-- Decidable guard: if the field `k` of `p` is present and truthy, it
satisfies `good`. -/
def fieldOk (p : Json) (k : String) (good : Json → Bool) : Bool :=
  match p.getField k with
  | some v => !v.truthy || good v
  | none => true

/-! ## Theorems -/

/-- C1: when every endpoint of the catalog fails (after its own retries and
its timeout race), `translate()` rejects with the single wrapped error
"System Failure: <last endpoint's reason>" — and never with a raw,
unwrapped per-endpoint error: the surfaced message strictly extends the
last raw reason, so it cannot equal it. -/
theorem translate_all_fail_wrapped (env1 env2 env3 : EndpointEnv)
    (m1 m2 m3 : String)
    (h1 : withTimeout (generateWithRetry env1) (some 45000) = .error m1)
    (h2 : withTimeout (generateWithRetry env2) (some 60000) = .error m2)
    (h3 : (generateWithRetry env3).result = .error m3) :
    translate env1 env2 env3 = .error ("System Failure: " ++ m3) ∧
    translate env1 env2 env3 ≠ .error m3 := by
  refine ⟨by simp [translate, h1, h2, h3], ?_⟩
  simp only [translate, h1, h2, h3]
  intro hcontra
  have hmsg : "System Failure: " ++ m3 = m3 := Except.error.inj hcontra
  have hl := congrArg String.length hmsg
  simp [String.length_append] at hl
  exact absurd hl (by decide)

/-- Witness for `translate_all_fail_wrapped`: a run where every endpoint
fails immediately with reason "boom". -/
theorem translate_all_fail_wrapped_witness :
    translate (fun _ => ⟨0, .error "boom"⟩) (fun _ => ⟨0, .error "boom"⟩)
        (fun _ => ⟨0, .error "boom"⟩)
      = .error ("System Failure: " ++ "boom") ∧
    translate (fun _ => ⟨0, .error "boom"⟩) (fun _ => ⟨0, .error "boom"⟩)
        (fun _ => ⟨0, .error "boom"⟩) ≠ .error "boom" :=
  translate_all_fail_wrapped _ _ _ "boom" "boom" "boom" (by decide) (by decide)
    (by decide)

/-- C3 counterexample: a persistent failure of the Unavailable/Unknown
class ("service unavailable" contains none of "503", "overloaded", "429")
is NOT treated as transient by the retry wrapper: no second attempt is ever
made and no backoff is waited, contradicting the claim that such failures
are retried with attemptNumber * 1000 ms waits up to 3 attempts. -/
theorem retry_unavailable_not_retried :
    ¬ (2 ≤ (generateWithRetry
              (fun _ => ⟨0, .error "service unavailable"⟩)).attemptsMade ∧
       1000 ≤ (generateWithRetry
              (fun _ => ⟨0, .error "service unavailable"⟩)).backoffMs) := by
  decide

/-- C3 (amended): the retry wrapper classifies by message substring — only
failures whose message contains "503", "overloaded" or "429" (the
Overloaded/RateLimited classes) are treated as transient.  Those are
retried after attemptNumber * 1000 ms waits, up to 3 attempts, the last
failure being escalated on exhaustion with 6000 ms of accumulated backoff
(≥ the 1+2 seconds of the design); every other failure — the
Unavailable/Unknown classes as much as the Fatal/Malformed class —
propagates immediately after a single attempt with no backoff.  (A timeout
never reaches this wrapper at all: the race sits outside it.) -/
theorem retry_policy (env : EndpointEnv) (m1 m2 m3 : String) :
    ((env 1).outcome = .error m1 → (env 2).outcome = .error m2 →
     (env 3).outcome = .error m3 →
     isRetriableMsg m1 = true → isRetriableMsg m2 = true →
     isRetriableMsg m3 = true →
     (generateWithRetry env).result = .error m3 ∧
     (generateWithRetry env).attemptsMade = 3 ∧
     (generateWithRetry env).backoffMs = 6000) ∧
    ((env 1).outcome = .error m1 → isRetriableMsg m1 = false →
     (generateWithRetry env).result = .error m1 ∧
     (generateWithRetry env).attemptsMade = 1 ∧
     (generateWithRetry env).backoffMs = 0) := by
  constructor
  · intro h1 h2 h3 r1 r2 r3
    simp [generateWithRetry, retryLoop, h1, h2, h3, r1, r2, r3]
  · intro h1 r1
    simp [generateWithRetry, retryLoop, h1, r1]

/-- Witness for `retry_policy`: a persistent "503" failure exhausts all
three attempts; a persistent "host unreachable" failure is rethrown after
the first. -/
theorem retry_policy_witness :
    (generateWithRetry (fun _ => ⟨0, .error "503"⟩)).attemptsMade = 3 ∧
    (generateWithRetry
        (fun _ => ⟨0, .error "host unreachable"⟩)).attemptsMade = 1 :=
  ⟨((retry_policy (fun _ => ⟨0, .error "503"⟩) "503" "503" "503").1 rfl rfl rfl
      (by decide) (by decide) (by decide)).2.1,
   ((retry_policy (fun _ => ⟨0, .error "host unreachable"⟩)
      "host unreachable" "" "").2 rfl (by decide)).2.1⟩

/-- Arithmetic helper: shifting the base of an index range by one. -/
lemma cons_range_shift (n idx : Nat) :
    idx :: (List.range (n + 1)).map (· + (idx + 1))
      = (List.range (n + 1 + 1)).map (· + idx) := by
  conv_rhs => rw [List.range_succ_eq_map, List.map_cons, List.map_map]
  refine congrArg₂ List.cons (by simp) ?_
  apply List.map_congr_left
  intro a ha
  simp [Function.comp]
  omega

/-- Helper for `fallback_first_success`, generalised over the starting
index and the carried last error. -/
lemma tryInOrderFrom_first_success (os : List (Except String String)) :
    ∀ (k idx : Nat) (e t : String),
      os.get? k = some (.ok t) →
      (∀ j, j < k → ∃ m, os.get? j = some (.error m)) →
      tryInOrderFrom idx e os = (.ok t, (List.range (k + 1)).map (· + idx)) := by
  induction os with
  | nil => intro k idx e t hk _; simp at hk
  | cons o rest ih =>
    intro k idx e t hk hfail
    cases k with
    | zero =>
      simp at hk
      subst hk
      simp [tryInOrderFrom, List.range_succ]
    | succ k' =>
      obtain ⟨m, hm⟩ := hfail 0 (Nat.succ_pos k')
      simp at hm
      subst hm
      have hk' : rest.get? k' = some (.ok t) := by simpa using hk
      have hfail' : ∀ j, j < k' → ∃ m', rest.get? j = some (.error m') := by
        intro j hj
        have h2 := hfail (j + 1) (Nat.succ_lt_succ hj)
        simpa using h2
      have ihh := ih k' (idx + 1) m t hk' hfail'
      simp only [tryInOrderFrom, ihh]
      exact congrArg (Prod.mk _) (cons_range_shift k' idx)

/-- C2: if endpoint `k` (0-based) is the first catalog entry to succeed,
the fallback loop invoked exactly the endpoints `0..k`, each exactly once
and in catalog order (the invocation trace is precisely `range (k+1)`),
endpoints after `k` were never invoked, and the returned value is exactly
endpoint `k`'s text.  Each entry of the trace stands for one call of the
per-endpoint timeout/retry stack, so any retries stay inside their own
endpoint, and the loop shape makes the invocations strictly sequential. -/
theorem fallback_first_success (os : List (Except String String)) (k : Nat)
    (t : String) (hk : os.get? k = some (.ok t))
    (hfail : ∀ j, j < k → ∃ m, os.get? j = some (.error m)) :
    tryModelsInOrder os = (.ok t, List.range (k + 1)) := by
  have h := tryInOrderFrom_first_success os k 0 "" t hk hfail
  simpa [tryModelsInOrder] using h

/-- Witness for `fallback_first_success`: the second endpoint is the first
to succeed, so exactly endpoints 0 and 1 are invoked and its text is
returned. -/
theorem fallback_first_success_witness :
    tryModelsInOrder [.error "a", .ok "T", .error "c"]
      = (.ok "T", List.range 2) :=
  fallback_first_success _ 1 "T" rfl
    (fun j hj => by
      have hj0 : j = 0 := by omega
      subst hj0
      exact ⟨"a", rfl⟩)

/-- C6: a `null` timeout disables the race entirely and, in the Gemini
catalog, is given only to the last entry; with a finite timeout `t`, once
the computation's elapsed time reaches `t` the race settles with the
"Timeout after ..." error whatever the abandoned computation would have
produced (its outcome — success or failure — is discarded, never aborted);
and downstream a timed-out endpoint is treated like any transient failure:
the orchestrator advances to the next endpoint. -/
theorem timeout_policy :
    (∀ run : RetryRun, withTimeout run none = run.result) ∧
    (∀ i p, geminiCatalog.get? i = some p → (p.2 = none ↔ i = 2)) ∧
    (∀ (run : RetryRun) (t : Nat), t ≤ run.elapsedMs →
        withTimeout run (some t)
          = .error ("Timeout after " ++ toString t ++ "ms")) ∧
    (∀ (envs : Nat → EndpointEnv) (text : String),
        45000 ≤ (generateWithRetry (envs 0)).elapsedMs →
        withTimeout (generateWithRetry (envs 1)) (some 60000) = .ok text →
        geminiTryModels envs = (.ok text, [0, 1])) := by
  have hexp : ∀ (run : RetryRun) (t : Nat), t ≤ run.elapsedMs →
      withTimeout run (some t)
        = .error ("Timeout after " ++ toString t ++ "ms") := by
    intro run t h
    simp only [withTimeout]
    rw [if_neg (by omega)]
  refine ⟨fun run => rfl, ?_, hexp, ?_⟩
  · intro i p hp
    rcases i with _ | _ | _ | i <;> simp_all [geminiCatalog] <;>
      subst hp <;> simp
  · intro envs text h0 h1
    have h0' := hexp (generateWithRetry (envs 0)) 45000 h0
    simp [geminiTryModels, tryModelsInOrder, tryInOrderFrom, h0', h1]

/-- Witness for `timeout_policy`: a computation that would succeed with
"late" at 45000 ms is beaten by a 45000 ms deadline and its outcome is
discarded; an endpoint chain whose first entry times out advances to the
second and returns its text. -/
theorem timeout_policy_witness :
    withTimeout ⟨.ok "late", 1, 0, 45000⟩ (some 45000)
      = .error ("Timeout after " ++ toString 45000 ++ "ms") ∧
    geminiTryModels
        (fun i => if i = 0 then (fun _ => ⟨50000, .error "slow"⟩)
                  else (fun _ => ⟨0, .ok "hi"⟩))
      = (.ok "hi", [0, 1]) :=
  ⟨timeout_policy.2.2.1 ⟨.ok "late", 1, 0, 45000⟩ 45000 (by decide),
   timeout_policy.2.2.2 _ "hi" (by decide) (by decide)⟩

/-- Within one streaming attempt every delivered string extends the
previously delivered one. -/
lemma deliveriesFrom_chain (chunks : List String) :
    ∀ acc, List.Chain' (fun a b : String => ∃ u, a ++ u = b)
      (deliveriesFrom acc chunks) := by
  induction chunks with
  | nil => intro acc; simp [deliveriesFrom]
  | cons c rest ih =>
    intro acc
    cases rest with
    | nil => simp [deliveriesFrom]
    | cons c' rest' =>
      rw [deliveriesFrom, deliveriesFrom]
      exact List.chain'_cons.mpr ⟨⟨c', rfl⟩, ih (acc ++ c)⟩

/-- Every delivered string is the full accumulated text so far. -/
lemma deliveriesFrom_get (chunks : List String) :
    ∀ (acc : String) (i : Nat) (h : i < (deliveriesFrom acc chunks).length),
      (deliveriesFrom acc chunks).get ⟨i, h⟩
        = concatTo acc (chunks.take (i + 1)) := by
  induction chunks with
  | nil => intro acc i h; simp [deliveriesFrom] at h
  | cons c rest ih =>
    intro acc i h
    cases i with
    | zero => simp [deliveriesFrom, concatTo]
    | succ i' =>
      have h' : i' < (deliveriesFrom (acc ++ c) rest).length := by
        simpa [deliveriesFrom] using h
      have hi := ih (acc ++ c) i' h'
      simpa [deliveriesFrom, concatTo] using hi

/-- C7 (amended): within one streaming attempt the deliveries are
monotonically non-shrinking — each delivered string extends the previous
one — and every delivery is the complete accumulated snapshot (the callback
receives the whole text, so a consumer replaces, never appends); but a new
attempt is started not only by an endpoint switch: an internal retry of the
same endpoint (a retriable mid-stream failure) likewise restarts the
accumulator from the empty string, its deliveries computed independently of
the previous attempt, so the first delivery after either kind of restart
may be shorter. -/
theorem stream_replace_semantics (chunks : List String) (acc : String)
    (env : Nat → StreamAttempt) (ch : List String) (m : String)
    (h1 : env 1 = .failAfter ch m) (hr : isRetriableMsg m = true) :
    List.Chain' (fun a b : String => ∃ u, a ++ u = b)
        (deliveriesFrom acc chunks) ∧
    (∀ (i : Nat) (h : i < (attemptDeliveries chunks).length),
        (attemptDeliveries chunks).get ⟨i, h⟩
          = concatTo "" (chunks.take (i + 1))) ∧
    (streamRetry env).1
      = attemptDeliveries ch ++ (streamRetryLoop env 2 2 m).1 := by
  refine ⟨deliveriesFrom_chain chunks acc,
          fun i h => deliveriesFrom_get chunks "" i h, ?_⟩
  simp [streamRetry, streamRetryLoop, h1, hr]

/-- C7 counterexample: one single-endpoint `_generateWithRetry` call (so no
endpoint switch anywhere) delivers "He", hits a retriable mid-stream "503"
failure, and then delivers the shorter "A" from its second attempt — the
delivery sequence of a single endpoint invocation shrinks, refuting the
claim that only a switch to a different endpoint starts a new, possibly
shorter, attempt. -/
theorem stream_reset_counterexample :
    ¬ List.Chain' (fun a b : String => a.length ≤ b.length)
        (streamRetry (fun n => if n = 1 then .failAfter ["He"] "503"
                               else .success ["A"])).1 := by
  intro hch
  have heq : (streamRetry (fun n => if n = 1 then .failAfter ["He"] "503"
                                    else .success ["A"])).1 = ["He", "A"] := by
    rfl
  rw [heq] at hch
  have h2 := (List.chain'_cons.mp hch).1
  exact absurd h2 (by decide)

/-- Witness for `stream_replace_semantics`: the retriable "503" mid-stream
failure makes the second attempt restart with an independent delivery
log. -/
theorem stream_replace_semantics_witness :
    (streamRetry (fun n => if n = 1 then .failAfter ["He"] "503"
                           else .success ["A"])).1
      = attemptDeliveries ["He"]
        ++ (streamRetryLoop (fun n => if n = 1 then .failAfter ["He"] "503"
                                      else .success ["A"]) 2 2 "503").1 :=
  (stream_replace_semantics [] "" _ ["He"] "503" rfl (by decide)).2.2

/-- C4: while a translation is in flight the session starts no second
call.  The synchronous capture guard, the 3-second timer tick and the
manual `translateNow` are all exact no-ops on any camera state whose
in-flight flag is set — in particular `translateNow` leaves the attempt
counter unchanged; the flag is raised by the call start and lowered only by
resolution, so at most one orchestrated call is ever in flight; and in the
movement-driven PDF session a movement-end during an in-flight translation
schedules nothing (it even clears the pending timer) and a timer firing
then runs nothing. -/
theorem single_flight (s : CamState) (p : PdfState) (t : Nat)
    (hs : s.isTranslating = true) (hp : p.inProgress = true) :
    camCapture s = s ∧ camTimerTick s = s ∧ camTranslateNow s = s ∧
    (camTranslateNow s).attempts = s.attempts ∧
    (∀ n, camCapture ⟨true, false, n⟩ = ⟨true, true, n + 1⟩) ∧
    (∀ st : CamState, (camResolve st).isTranslating = false) ∧
    (pdfMoveEnd p t).runs = p.runs ∧ (pdfMoveEnd p t).debounceAt = none ∧
    (pdfFire p).runs = p.runs := by
  obtain ⟨sa, st', sn⟩ := s
  obtain ⟨la, ip, da, rs⟩ := p
  simp only at hs hp
  subst hs hp
  refine ⟨?_, ?_, ?_, ?_, ?_, ?_, ?_, ?_, ?_⟩ <;>
    cases da <;>
    cases sa <;>
    simp [camCapture, camTimerTick, camTranslateNow, camResolve,
      pdfMoveEnd, pdfFire]

/-- Witness for `single_flight`: with an attempt in flight, a manual
trigger changes nothing, and a movement-end and a pending timer firing run
no translation. -/
theorem single_flight_witness :
    camTranslateNow ⟨true, true, 5⟩ = ⟨true, true, 5⟩ ∧
    (pdfMoveEnd ⟨true, true, some 3, [7]⟩ 0).runs = [7] ∧
    (pdfFire ⟨true, true, some 3, [7]⟩).runs = [7] :=
  ⟨(single_flight ⟨true, true, 5⟩ ⟨true, true, some 3, [7]⟩ 0 rfl rfl).2.2.1,
   (single_flight ⟨true, true, 5⟩ ⟨true, true, some 3, [7]⟩ 0 rfl
      rfl).2.2.2.2.2.2.1,
   (single_flight ⟨true, true, 5⟩ ⟨true, true, some 3, [7]⟩ 0 rfl
      rfl).2.2.2.2.2.2.2.2⟩

/-- Helper for `debounce_single_attempt`: with the debounce timer armed for
`u + 800` and the session idle, a chain of further events each coming
within 800 ms of its predecessor keeps re-arming the timer without ever
letting it fire, ending with the timer armed 800 ms after the last
event. -/
lemma debounceRun_pending (ts : List Nat) :
    ∀ (u : Nat) (rs : List Nat),
      List.Chain' (fun a b => a < b ∧ b < a + 800) (u :: ts) →
      debounceRun ⟨true, false, some (u + 800), rs⟩ ts
        = ⟨true, false, some ((u :: ts).getLast (List.cons_ne_nil u ts) + 800),
           rs⟩ := by
  induction ts with
  | nil => intro u rs _; simp [debounceRun]
  | cons t ts' ih =>
    intro u rs hc
    have h1 : u < t ∧ t < u + 800 := (List.chain'_cons.mp hc).1
    have h2 := (List.chain'_cons.mp hc).2
    rw [debounceRun]
    have hfire : fireIfDue ⟨true, false, some (u + 800), rs⟩ t
        = ⟨true, false, some (u + 800), rs⟩ := by
      simp only [fireIfDue]
      rw [if_neg (by omega)]
    rw [hfire]
    have hmv : pdfMoveEnd ⟨true, false, some (u + 800), rs⟩ t
        = ⟨true, false, some (t + 800), rs⟩ := rfl
    rw [hmv]
    rw [ih t rs h2]
    rfl

/-- C5: starting idle in live mode with no timer pending, any nonempty
sequence of movement-end events in which each event arrives less than
800 ms after the previous one produces exactly one translation run, and it
fires exactly 800 ms after the last event — every earlier event merely
reset the timer. -/
theorem debounce_single_attempt (ts : List Nat) (h : ts ≠ [])
    (hc : List.Chain' (fun a b => a < b ∧ b < a + 800) ts) :
    (debounceFinish (debounceRun ⟨true, false, none, []⟩ ts)).runs
      = [ts.getLast h + 800] := by
  cases ts with
  | nil => exact absurd rfl h
  | cons t0 rest =>
    rw [debounceRun]
    have hfire : fireIfDue ⟨true, false, none, []⟩ t0
        = ⟨true, false, none, []⟩ := rfl
    rw [hfire]
    have hmv : pdfMoveEnd ⟨true, false, none, []⟩ t0
        = ⟨true, false, some (t0 + 800), []⟩ := rfl
    rw [hmv]
    rw [debounceRun_pending rest t0 [] hc]
    simp [debounceFinish, pdfFire]

/-- Witness for `debounce_single_attempt`: three movement-end events at
0 ms, 500 ms and 900 ms yield exactly one run, at 1700 ms. -/
theorem debounce_single_attempt_witness :
    (debounceFinish (debounceRun ⟨true, false, none, []⟩ [0, 500, 900])).runs
      = [1700] :=
  debounce_single_attempt [0, 500, 900] (by decide)
    (by simp [List.chain'_cons])

/-- C8 counterexample: with the guest balance at 0 the credit check reports
failure (`allowed = false`), yet an idle PDF live-mode cycle still reaches
the orchestrator — the live path performs no reserve check at all, refuting
the claim that the orchestrator is never called in a cycle whose check
fails. -/
theorem gate_claim_counterexample :
    ¬ ((useGuestCredit ⟨some 0⟩).1.success = false →
       pdfLiveCallsTranslate ⟨⟨some 0⟩, true, true⟩ ⟨true, false, none, []⟩
         = false) := by
  decide

/-- C8 (amended): only the single-shot `captureAndTranslate` path is gated
by the credit check — when `useCredit` fails it never reaches the
orchestrator; the live-mode cycle reaches the orchestrator without
consulting the credit state at all (the call decision is invariant under
any change of the stored guest balance; the camera loop,
`camCallsTranslate`, does not even read it). -/
theorem gate_single_shot_only (e : AppEnv) (p : PdfState)
    (h : (useGuestCredit e.guest).1.success = false) :
    (appCaptureCallsTranslate e).1 = false ∧
    (∀ g : GuestStore,
        pdfLiveCallsTranslate { e with guest := g } p
          = pdfLiveCallsTranslate e p) := by
  refine ⟨by simp [appCaptureCallsTranslate, h], fun g => rfl⟩

/-- Witness for `gate_single_shot_only`: with an exhausted guest balance
the single-shot path stops before the orchestrator, while the live path's
decision ignores the balance. -/
theorem gate_single_shot_only_witness :
    (appCaptureCallsTranslate ⟨⟨some 0⟩, true, true⟩).1 = false ∧
    pdfLiveCallsTranslate ⟨⟨some 5⟩, true, true⟩ ⟨true, false, none, []⟩
      = pdfLiveCallsTranslate ⟨⟨some 0⟩, true, true⟩ ⟨true, false, none, []⟩ :=
  ⟨(gate_single_shot_only ⟨⟨some 0⟩, true, true⟩ ⟨true, false, none, []⟩
      (by decide)).1,
   (gate_single_shot_only ⟨⟨some 0⟩, true, true⟩ ⟨true, false, none, []⟩
      (by decide)).2 ⟨some 5⟩⟩

/-- C9: for every guest `useCredit` call, a stored balance at or below zero
yields a failure with `promptLogin` and leaves the storage untouched; a
positive balance yields success with the decremented balance both returned
and stored; a first-time guest (no stored value) is initialised with 10 and
ends at 9; and whatever the starting state, any value the call leaves in
storage is either the untouched old one or non-negative — the stored guest
balance never becomes negative. -/
theorem guest_credit_safety (s : GuestStore) (v : Int) :
    (s.val = some v → v ≤ 0 →
       (useGuestCredit s).1.success = false ∧
       (useGuestCredit s).1.promptLogin = true ∧
       (useGuestCredit s).2 = s) ∧
    (s.val = some v → 0 < v →
       (useGuestCredit s).1.success = true ∧
       (useGuestCredit s).1.remainingCredits = some (v - 1) ∧
       (useGuestCredit s).2.val = some (v - 1)) ∧
    (s.val = none →
       (useGuestCredit s).1.success = true ∧
       (useGuestCredit s).1.remainingCredits = some 9 ∧
       (useGuestCredit s).2.val = some 9) ∧
    (∀ w : Int, (useGuestCredit s).2.val = some w →
       s.val = some w ∨ 0 ≤ w) := by
  obtain ⟨_ | u⟩ := s
  · refine ⟨by intro hv; simp at hv, by intro hv; simp at hv,
            by intro _; decide, ?_⟩
    intro w hw
    simp [useGuestCredit, getGuestCredits] at hw
    omega
  · by_cases hu : u ≤ 0
    · refine ⟨?_, ?_, by intro hn; simp at hn, ?_⟩
      · intro hv hv0
        simp [useGuestCredit, getGuestCredits, hu]
      · intro hv hv0
        simp at hv
        subst hv
        omega
      · intro w hw
        simp [useGuestCredit, getGuestCredits, hu] at hw
        subst hw
        left
        rfl
    · refine ⟨?_, ?_, by intro hn; simp at hn, ?_⟩
      · intro hv hv0
        simp at hv
        subst hv
        omega
      · intro hv hv0
        simp at hv
        subst hv
        simp [useGuestCredit, getGuestCredits, hu]
      · intro w hw
        simp [useGuestCredit, getGuestCredits, hu] at hw
        omega

/-- Witness for `guest_credit_safety`: a guest at balance 0 is refused and
the storage kept at 0; a guest at balance 3 succeeds and the storage drops
to 2. -/
theorem guest_credit_safety_witness :
    ((useGuestCredit ⟨some 0⟩).1.success = false ∧
     (useGuestCredit ⟨some 0⟩).1.promptLogin = true ∧
     (useGuestCredit ⟨some 0⟩).2 = ⟨some 0⟩) ∧
    ((useGuestCredit ⟨some 3⟩).1.success = true ∧
     (useGuestCredit ⟨some 3⟩).1.remainingCredits = some 2 ∧
     (useGuestCredit ⟨some 3⟩).2.val = some 2) :=
  ⟨(guest_credit_safety ⟨some 0⟩ 0).1 rfl (by decide),
   (guest_credit_safety ⟨some 3⟩ 3).2.1 rfl (by decide)⟩

/-- If a field, when present and truthy, satisfies `good`, and the default
does too, so does the JS `field || default` idiom. -/
lemma jsOr_good (v : Option Json) (d : Json) (good : Json → Bool)
    (hd : good d = true)
    (h : (match v with
          | some x => !x.truthy || good x
          | none => true) = true) :
    good (jsOr v d) = true := by
  cases v with
  | none => simpa [jsOr] using hd
  | some x =>
    by_cases ht : x.truthy
    · simp [jsOr, ht]
      simp [ht] at h
      exact h
    · simp [jsOr, ht]
      exact hd

/-- C10 (amended): an unparseable model response still resolves — with
empty original text, the raw response text as the full translation, and an
empty word-pair array; for a parseable response each output field is the
parsed field when that is present and truthy, and the default ""/[]
otherwise, so the outputs have the expected shapes (strings, array)
whenever the parsed JSON's corresponding fields, where present and truthy,
have those shapes — but a parseable response carrying a field of another
shape is passed through unchanged. -/
theorem wordpairs_shape (text : String) (p : Json) :
    (translateWithWordPairs text none = ⟨.str "", .str text, .arr []⟩) ∧
    (fieldOk p "originalText" Json.isStr = true →
        ((translateWithWordPairs text (some p)).originalText).isStr
          = true) ∧
    (fieldOk p "fullTranslation" Json.isStr = true →
        ((translateWithWordPairs text (some p)).fullTranslation).isStr
          = true) ∧
    (fieldOk p "wordPairs" Json.isArr = true →
        ((translateWithWordPairs text (some p)).wordPairs).isArr = true) := by
  refine ⟨rfl, ?_, ?_, ?_⟩ <;>
    intro h <;>
    exact jsOr_good _ _ _ rfl h

/-- C10 counterexample: the response text between the braces parses as an
object whose wordPairs field is the number 5 — valid JSON, so the call
resolves successfully — and the resolved object's wordPairs is that number,
not an array, refuting the claim that every successful resolution carries
an array there. -/
theorem wordpairs_type_counterexample :
    ¬ (((translateWithWordPairs "\x7b\"wordPairs\": 5\x7d"
          (some (.obj [("wordPairs", .num 5)]))).wordPairs).isArr = true) := by
  decide

/-- Witness for `wordpairs_shape`: a well-shaped parsed response yields an
array in the wordPairs field. -/
theorem wordpairs_shape_witness :
    ((translateWithWordPairs "resp"
        (some (.obj [("originalText", .str "你好"),
                     ("fullTranslation", .str "hello"),
                     ("wordPairs", .arr [.str "x"])]))).wordPairs).isArr
      = true :=
  (wordpairs_shape "resp" _).2.2.2 (by decide)

end ChineseTranslator
